import Mathlib

/-!
Verification of the ProxmoxMCP tool-dispatch contract.

The development embeds src/src/proxmox_mcp/server.py: the eleven tool
registrations of ProxmoxMCPServer._setup_tools, the wrapper functions they
register, the start method with its signal handlers, and the module entry
block. The handler groups (NodeTools, VMTools, ContainerTools, StorageTools,
ClusterTools, AIProxmoxDiagnostics) and the description constants live in
modules of the repository that are not part of the inspected source; they are
abstracted as parameters. The MCP framework pieces (registry, parameter
validator, response envelope) are modelled from the specification sections
4.1 to 4.4.
-/

namespace ProxmoxMCP

/-- Modelled from the spec: a content block, one unit of a response envelope,
typed as text (mcp.types.TextContent is outside the inspected source). -/
structure TextContent where
  type : String
  text : String
deriving DecidableEq, Repr

/-- Raw JSON-ish parameter values arriving in an invocation request. -/
inductive Value where
  | str (s : String)
  | int (n : Int)
  | bool (b : Bool)
deriving DecidableEq, Repr

/-- Declared parameter types. Every parameter in server.py is annotated str. -/
inductive ParamType where
  | string
deriving DecidableEq, Repr

/-- One entry of a tool parameter schema: name, declared type, required flag
and the human description from the Field annotation. -/
structure ParamSpec where
  name : String
  ptype : ParamType
  required : Bool
  descr : String
deriving DecidableEq, Repr

/-- Domain failure raised by an underlying hypervisor handler. -/
structure HandlerError where
  message : String
deriving DecidableEq, Repr

/-- Modelled from the spec: a ValidationError enumerating which fields are
missing or of the wrong type (section 4.2). -/
structure ValidationError where
  fieldErrors : List (String × String)
deriving DecidableEq, Repr

/-- Modelled from the spec: the RegistrationError for a duplicate tool
identifier (section 7, error class b). -/
structure RegistrationError where
  identifier : String
deriving DecidableEq, Repr

/-- Outcome of one underlying handler call: domain content items or a domain
error. -/
abbrev HandlerOutcome := Except HandlerError (List TextContent)

/-- A call log records each invocation of an underlying handler: the handler
name and the exact argument values passed. -/
abbrev CallLog := List (String × List Value)

/-- Modelled from the spec: the handler groups constructed in
ProxmoxMCPServer.__init__ (node_tools, vm_tools, container_tools,
storage_tools, cluster_tools, ai_diagnostics) are repository modules not
present in the inspected source; each underlying handler is an abstract
function from its parameters to a domain outcome. -/
structure Handlers where
  node_tools_get_nodes : Unit → HandlerOutcome
  node_tools_get_node_status : String → HandlerOutcome
  vm_tools_get_vms : Unit → HandlerOutcome
  container_tools_get_containers : Unit → HandlerOutcome
  vm_tools_execute_command : String → String → String → HandlerOutcome
  storage_tools_get_storage : Unit → HandlerOutcome
  cluster_tools_get_cluster_status : Unit → HandlerOutcome
  ai_analyze_cluster_health : Unit → HandlerOutcome
  ai_diagnose_vm_issues : String → String → HandlerOutcome
  ai_suggest_resource_optimization : Unit → HandlerOutcome
  ai_analyze_security_posture : Unit → HandlerOutcome

/-- Modelled from the spec: the description constants imported from
tools.definitions are not in the inspected source; they are abstract strings
supplied at registration. -/
structure Descs where
  GET_NODES_DESC : String
  GET_NODE_STATUS_DESC : String
  GET_VMS_DESC : String
  GET_CONTAINERS_DESC : String
  EXECUTE_VM_COMMAND_DESC : String
  GET_STORAGE_DESC : String
  GET_CLUSTER_STATUS_DESC : String
  ANALYZE_CLUSTER_HEALTH_DESC : String
  DIAGNOSE_VM_ISSUES_DESC : String
  SUGGEST_RESOURCE_OPTIMIZATION_DESC : String
  ANALYZE_SECURITY_POSTURE_DESC : String

/-! Wrapper functions registered by _setup_tools (server.py lines 93 to 167).
Each body is a one-line delegation to an underlying handler; the CallLog
component records that single call site with the exact argument values. The
async wrappers (execute_vm_command and the diagnostics) await the same
delegation, which a pure embedding renders identically. -/

/-- Embedding of get_nodes (server.py line 94). -/
def get_nodes (H : Handlers) : CallLog × HandlerOutcome :=
  ([("node_tools.get_nodes", [])], H.node_tools_get_nodes ())

/-- Embedding of get_node_status (server.py line 98): forwards node verbatim
to node_tools.get_node_status. -/
def get_node_status (H : Handlers) (node : String) : CallLog × HandlerOutcome :=
  ([("node_tools.get_node_status", [Value.str node])],
   H.node_tools_get_node_status node)

/-- Embedding of get_vms (server.py line 108). -/
def get_vms (H : Handlers) : CallLog × HandlerOutcome :=
  ([("vm_tools.get_vms", [])], H.vm_tools_get_vms ())

/-- Embedding of get_containers (server.py line 113). -/
def get_containers (H : Handlers) : CallLog × HandlerOutcome :=
  ([("container_tools.get_containers", [])], H.container_tools_get_containers ())

/-- Embedding of execute_vm_command (server.py line 117): forwards node, vmid
and command verbatim to vm_tools.execute_command. -/
def execute_vm_command (H : Handlers) (node vmid command : String) :
    CallLog × HandlerOutcome :=
  ([("vm_tools.execute_command", [Value.str node, Value.str vmid, Value.str command])],
   H.vm_tools_execute_command node vmid command)

/-- Embedding of get_storage (server.py line 133). -/
def get_storage (H : Handlers) : CallLog × HandlerOutcome :=
  ([("storage_tools.get_storage", [])], H.storage_tools_get_storage ())

/-- Embedding of get_cluster_status (server.py line 138). -/
def get_cluster_status (H : Handlers) : CallLog × HandlerOutcome :=
  ([("cluster_tools.get_cluster_status", [])], H.cluster_tools_get_cluster_status ())

/-- Embedding of analyze_cluster_health (server.py line 143). -/
def analyze_cluster_health (H : Handlers) : CallLog × HandlerOutcome :=
  ([("ai_diagnostics.analyze_cluster_health", [])], H.ai_analyze_cluster_health ())

/-- Embedding of diagnose_vm_issues (server.py line 147): forwards node and
vmid verbatim to ai_diagnostics.diagnose_vm_issues. -/
def diagnose_vm_issues (H : Handlers) (node vmid : String) :
    CallLog × HandlerOutcome :=
  ([("ai_diagnostics.diagnose_vm_issues", [Value.str node, Value.str vmid])],
   H.ai_diagnose_vm_issues node vmid)

/-- Embedding of suggest_resource_optimization (server.py line 162). -/
def suggest_resource_optimization (H : Handlers) : CallLog × HandlerOutcome :=
  ([("ai_diagnostics.suggest_resource_optimization", [])],
   H.ai_suggest_resource_optimization ())

/-- Embedding of analyze_security_posture (server.py line 166). -/
def analyze_security_posture (H : Handlers) : CallLog × HandlerOutcome :=
  ([("ai_diagnostics.analyze_security_posture", [])],
   H.ai_analyze_security_posture ())

/-- A registered tool: identifier, description, parameter schema and the
wrapper invoked on validated argument values in schema order. -/
structure Tool where
  identifier : String
  description : String
  schema : List ParamSpec
  call : List Value → CallLog × HandlerOutcome

/-- Parameter schema of get_node_status, from its Annotated signature. -/
def get_node_status_schema : List ParamSpec :=
  [⟨"node", ParamType.string, true, "Name/ID of node to query"⟩]

/-- Parameter schema of execute_vm_command, from its Annotated signature. -/
def execute_vm_command_schema : List ParamSpec :=
  [⟨"node", ParamType.string, true, "Host node name"⟩,
   ⟨"vmid", ParamType.string, true, "VM ID number"⟩,
   ⟨"command", ParamType.string, true, "Shell command to run"⟩]

/-- Parameter schema of diagnose_vm_issues, from its Annotated signature. -/
def diagnose_vm_issues_schema : List ParamSpec :=
  [⟨"node", ParamType.string, true, "Proxmox node name hosting the VM"⟩,
   ⟨"vmid", ParamType.string, true, "Virtual machine ID to diagnose"⟩]

/-- Fallback for an argument list that does not fit the schema arity; never
reached on schema-validated arguments. -/
def bindingMismatch : CallLog × HandlerOutcome :=
  ([], Except.error ⟨"argument binding mismatch"⟩)

/-- Tool record for get_nodes as registered by its decorator (line 93). -/
def get_nodes_tool (d : Descs) (H : Handlers) : Tool :=
  { identifier := "get_nodes", description := d.GET_NODES_DESC, schema := [],
    call := fun _ => get_nodes H }

/-- Tool record for get_node_status as registered by its decorator (line 97). -/
def get_node_status_tool (d : Descs) (H : Handlers) : Tool :=
  { identifier := "get_node_status", description := d.GET_NODE_STATUS_DESC,
    schema := get_node_status_schema,
    call := fun args =>
      match args with
      | [Value.str node] => get_node_status H node
      | _ => bindingMismatch }

/-- Tool record for get_vms as registered by its decorator (line 107). -/
def get_vms_tool (d : Descs) (H : Handlers) : Tool :=
  { identifier := "get_vms", description := d.GET_VMS_DESC, schema := [],
    call := fun _ => get_vms H }

/-- Tool record for get_containers as registered by its decorator (line 112). -/
def get_containers_tool (d : Descs) (H : Handlers) : Tool :=
  { identifier := "get_containers", description := d.GET_CONTAINERS_DESC,
    schema := [], call := fun _ => get_containers H }

/-- Tool record for execute_vm_command as registered by its decorator
(line 116). -/
def execute_vm_command_tool (d : Descs) (H : Handlers) : Tool :=
  { identifier := "execute_vm_command", description := d.EXECUTE_VM_COMMAND_DESC,
    schema := execute_vm_command_schema,
    call := fun args =>
      match args with
      | [Value.str node, Value.str vmid, Value.str command] =>
          execute_vm_command H node vmid command
      | _ => bindingMismatch }

/-- Tool record for get_storage as registered by its decorator (line 132). -/
def get_storage_tool (d : Descs) (H : Handlers) : Tool :=
  { identifier := "get_storage", description := d.GET_STORAGE_DESC, schema := [],
    call := fun _ => get_storage H }

/-- Tool record for get_cluster_status as registered by its decorator
(line 137). -/
def get_cluster_status_tool (d : Descs) (H : Handlers) : Tool :=
  { identifier := "get_cluster_status", description := d.GET_CLUSTER_STATUS_DESC,
    schema := [], call := fun _ => get_cluster_status H }

/-- Tool record for analyze_cluster_health as registered by its decorator
(line 142). -/
def analyze_cluster_health_tool (d : Descs) (H : Handlers) : Tool :=
  { identifier := "analyze_cluster_health",
    description := d.ANALYZE_CLUSTER_HEALTH_DESC, schema := [],
    call := fun _ => analyze_cluster_health H }

/-- Tool record for diagnose_vm_issues as registered by its decorator
(line 146). -/
def diagnose_vm_issues_tool (d : Descs) (H : Handlers) : Tool :=
  { identifier := "diagnose_vm_issues", description := d.DIAGNOSE_VM_ISSUES_DESC,
    schema := diagnose_vm_issues_schema,
    call := fun args =>
      match args with
      | [Value.str node, Value.str vmid] => diagnose_vm_issues H node vmid
      | _ => bindingMismatch }

/-- Tool record for suggest_resource_optimization as registered by its
decorator (line 161). -/
def suggest_resource_optimization_tool (d : Descs) (H : Handlers) : Tool :=
  { identifier := "suggest_resource_optimization",
    description := d.SUGGEST_RESOURCE_OPTIMIZATION_DESC, schema := [],
    call := fun _ => suggest_resource_optimization H }

/-- Tool record for analyze_security_posture as registered by its decorator
(line 165). -/
def analyze_security_posture_tool (d : Descs) (H : Handlers) : Tool :=
  { identifier := "analyze_security_posture",
    description := d.ANALYZE_SECURITY_POSTURE_DESC, schema := [],
    call := fun _ => analyze_security_posture H }

/-- The eleven tools in the registration order of _setup_tools
(server.py lines 93 to 167). -/
def toolList (d : Descs) (H : Handlers) : List Tool :=
  [get_nodes_tool d H, get_node_status_tool d H, get_vms_tool d H,
   get_containers_tool d H, execute_vm_command_tool d H, get_storage_tool d H,
   get_cluster_status_tool d H, analyze_cluster_health_tool d H,
   diagnose_vm_issues_tool d H, suggest_resource_optimization_tool d H,
   analyze_security_posture_tool d H]

/-- Modelled from the spec: register fails with a RegistrationError if the
identifier is already registered, otherwise appends the tool (section 4.1). -/
def register (reg : List Tool) (t : Tool) : Except RegistrationError (List Tool) :=
  if reg.any (fun u => u.identifier == t.identifier) then
    Except.error ⟨t.identifier⟩
  else
    Except.ok (reg ++ [t])

/-- Modelled from the spec: a failed registration leaves the registry as it
was; a successful one yields the extended registry (section 4.1). -/
def tryRegister (reg : List Tool) (t : Tool) : List Tool :=
  match register reg t with
  | Except.ok reg2 => reg2
  | Except.error _ => reg

/-- Modelled from the spec: lookup returns the registered descriptor and
handler for an identifier, or nothing when unregistered (section 4.1). -/
def lookup (reg : List Tool) (i : String) : Option Tool :=
  reg.find? (fun t => t.identifier == i)

/-- Startup registration: _setup_tools registers the eleven tools in order
into the initially empty registry. -/
def setupTools (d : Descs) (H : Handlers) : Except RegistrationError (List Tool) :=
  (toolList d H).foldlM register []

/-- Does a raw value conform to a declared parameter type. -/
def typeMatches : ParamType → Value → Bool
  | ParamType.string, Value.str _ => true
  | ParamType.string, _ => false

/-- Raw parameter lookup by name in an invocation request mapping. -/
def lookupParam (raw : List (String × Value)) (n : String) : Option Value :=
  (raw.find? (fun p => p.fst == n)).map Prod.snd

/-- Modelled from the spec: the fields of a schema that are missing though
required, or present with a value of the wrong type (section 4.2). -/
def fieldErrors (schema : List ParamSpec) (raw : List (String × Value)) :
    List (String × String) :=
  schema.filterMap fun s =>
    match lookupParam raw s.name with
    | none => if s.required then some (s.name, "missing") else none
    | some v => if typeMatches s.ptype v then none else some (s.name, "wrong type")

/-- The argument values extracted in schema order. -/
def extractArgs (schema : List ParamSpec) (raw : List (String × Value)) :
    List Value :=
  schema.filterMap fun s => lookupParam raw s.name

/-- Modelled from the spec: the parameter validator produces the typed
argument tuple, or a ValidationError enumerating the bad fields; the handler
only runs on a clean validation (section 4.2). -/
def validateParams (schema : List ParamSpec) (raw : List (String × Value)) :
    Except ValidationError (List Value) :=
  if fieldErrors schema raw = [] then Except.ok (extractArgs schema raw)
  else Except.error ⟨fieldErrors schema raw⟩

/-- An invocation request: tool identifier and raw parameter mapping. -/
structure InvocationRequest where
  tool : String
  params : List (String × Value)
deriving DecidableEq, Repr

/-- The ways a call can fail before or during handler execution. -/
inductive CallError where
  | notFound (identifier : String)
  | validation (e : ValidationError)
  | handlerFailure (e : HandlerError)
deriving DecidableEq, Repr

/-- A response envelope: error flag and ordered content blocks. -/
structure Response where
  isError : Bool
  content : List TextContent
deriving DecidableEq, Repr

/-- Human-readable description of a call failure. -/
def describeError : CallError → String
  | CallError.notFound i => "Unknown tool: " ++ i
  | CallError.validation e =>
      "Validation error: " ++
        String.intercalate ", " (e.fieldErrors.map fun p => p.fst ++ " " ++ p.snd)
  | CallError.handlerFailure e => "Error: " ++ e.message

/-- Validation and invocation stage of dispatch, for a tool already found in
the registry: validate the raw parameters against the schema, then call the
wrapper on the extracted arguments. The wrapper is called at exactly one
program point, only after validation succeeds, and its outcome is never
re-requested. -/
def dispatchFound (t : Tool) (raw : List (String × Value)) :
    CallLog × Except CallError (List TextContent) :=
  match validateParams t.schema raw with
  | Except.error e => ([], Except.error (CallError.validation e))
  | Except.ok args =>
    let r := t.call args
    (r.fst,
     match r.snd with
     | Except.ok items => Except.ok items
     | Except.error he => Except.error (CallError.handlerFailure he))

/-- Core dispatch (spec section 2 control flow): lookup by tool id, then the
validation and invocation stage. Returns the handler call log together with
the content items or the failure. -/
def callTool (reg : List Tool) (req : InvocationRequest) :
    CallLog × Except CallError (List TextContent) :=
  match lookup reg req.tool with
  | none => ([], Except.error (CallError.notFound req.tool))
  | some t => dispatchFound t req.params

/-- Modelled from the spec: response construction normalizes every outcome
into one envelope shape; a success carries the content items in order, a
failure carries a single descriptive text block (section 4.4). -/
def toResponse : Except CallError (List TextContent) → Response
  | Except.ok items => { isError := false, content := items }
  | Except.error e => { isError := true, content := [⟨"text", describeError e⟩] }

/-- Full dispatch of one request: core call then envelope construction. -/
def dispatch (reg : List Tool) (req : InvocationRequest) : CallLog × Response :=
  ((callTool reg req).fst, toResponse (callTool reg req).snd)

/-- Serving a request sequence: each request is dispatched independently, so
an error response to one request never prevents serving the next. -/
def serveAll (reg : List Tool) (reqs : List InvocationRequest) : List Response :=
  reqs.map (fun req => (dispatch reg req).snd)

/-! Process model: start, signal handling and the module entry block
(server.py lines 169 to 211). -/

/-- Python exception classes relevant to server.py: an ordinary Exception
with a message, KeyboardInterrupt, and the SystemExit raised by sys.exit.
Only the first is caught by an except Exception clause. -/
inductive PyExc where
  | exc (message : String)
  | keyboardInterrupt
  | systemExit (code : Nat)
deriving DecidableEq, Repr

/-- Signal number of SIGINT. -/
def SIGINT : Nat := 2

/-- Signal number of SIGTERM. -/
def SIGTERM : Nat := 15

/-- Embedding of signal_handler (server.py lines 181 to 183): logs the
shutdown message, then sys.exit 0 raises SystemExit 0 in the main thread. -/
def signal_handler (signum : Nat) : List String × PyExc :=
  (["Received signal to shutdown..."], PyExc.systemExit 0)

/-- Embedding of the two signal.signal installations (lines 186 and 187):
signal_handler is installed for exactly SIGINT and SIGTERM. -/
def installedHandlerResult (signum : Nat) : Option (List String × PyExc) :=
  if signum = SIGINT ∨ signum = SIGTERM then some (signal_handler signum) else none

/-- Embedding of ProxmoxMCPServer.start (lines 169 to 194). The argument is
how anyio.run of mcp.run_stdio_async finishes: none for a clean return, some
e when exception e escapes the event loop. The except clause catches only the
Exception class, logging the server error and calling sys.exit 1, which
raises SystemExit 1; KeyboardInterrupt and SystemExit propagate uncaught.
Result: the log lines and the exception leaving start, if any. -/
def start (runOutcome : Option PyExc) : List String × Option PyExc :=
  match runOutcome with
  | none => (["Starting MCP server..."], none)
  | some (PyExc.exc m) =>
      (["Starting MCP server...", "Server error: " ++ m],
       some (PyExc.systemExit 1))
  | some e => (["Starting MCP server..."], some e)

/-- Observable outcome of one process run: exit status, lines printed to
stdout and to stderr, logger lines, and whether start was reached. -/
structure ProcessResult where
  exitCode : Nat
  stdoutLines : List String
  stderrLines : List String
  logLines : List String
  served : Bool
deriving DecidableEq, Repr

/-- Embedding of the module entry block (server.py lines 197 to 211).
envConfig models os.getenv PROXMOX_MCP_CONFIG, none when unset; the guard
also treats an empty string as unset. startupOutcome models an exception
raised while constructing ProxmoxMCPServer, none when construction succeeds;
runOutcome is passed to start. The print builtin writes to stdout; sys.exit k
ends the process with status k; except Exception and except KeyboardInterrupt
catch their classes while SystemExit propagates with its code. -/
def mainEntry (envConfig : Option String) (startupOutcome : Option PyExc)
    (runOutcome : Option PyExc) : ProcessResult :=
  match envConfig with
  | none =>
      { exitCode := 1,
        stdoutLines := ["PROXMOX_MCP_CONFIG environment variable must be set"],
        stderrLines := [], logLines := [], served := false }
  | some path =>
    if path = "" then
      { exitCode := 1,
        stdoutLines := ["PROXMOX_MCP_CONFIG environment variable must be set"],
        stderrLines := [], logLines := [], served := false }
    else
      match startupOutcome with
      | some (PyExc.exc m) =>
          { exitCode := 1, stdoutLines := ["Error: " ++ m],
            stderrLines := [], logLines := [], served := false }
      | some PyExc.keyboardInterrupt =>
          { exitCode := 0, stdoutLines := ["Shutting down gracefully..."],
            stderrLines := [], logLines := [], served := false }
      | some (PyExc.systemExit c) =>
          { exitCode := c, stdoutLines := [], stderrLines := [],
            logLines := [], served := false }
      | none =>
        match start runOutcome with
        | (logs, none) =>
            { exitCode := 0, stdoutLines := [], stderrLines := [],
              logLines := logs, served := true }
        | (logs, some (PyExc.exc m)) =>
            { exitCode := 1, stdoutLines := ["Error: " ++ m],
              stderrLines := [], logLines := logs, served := true }
        | (logs, some PyExc.keyboardInterrupt) =>
            { exitCode := 0, stdoutLines := ["Shutting down gracefully..."],
              stderrLines := [], logLines := logs, served := true }
        | (logs, some (PyExc.systemExit c)) =>
            { exitCode := c, stdoutLines := [], stderrLines := [],
              logLines := logs, served := true }

/-- Running-server state at the moment a termination signal arrives: whether
the transport is accepting, the accepted requests not yet answered, and the
responses already produced. -/
structure ServerState where
  accepting : Bool
  inFlight : List InvocationRequest
  completed : List Response
deriving DecidableEq, Repr

/-- Terminal observation of the process: exit status and the responses that
were completed by exit time. -/
structure ProcessEnd where
  exitCode : Nat
  completed : List Response
deriving DecidableEq, Repr

/-- Exit code carried by a SystemExit; 1 for the other exception classes. -/
def PyExc.exitStatus : PyExc → Nat
  | PyExc.systemExit c => c
  | _ => 1

/-- Embedding of the effect of a termination signal on the running server:
signal_handler raises SystemExit 0, which unwinds the event loop at once, so
the process ends with status 0 holding only the responses already completed;
requests still in flight are discarded, never completed. -/
def onSignal (s : ServerState) : ProcessEnd :=
  { exitCode := (signal_handler SIGINT).snd.exitStatus, completed := s.completed }

/-- Modelled from the spec: the graceful-drain property of claim C9 - on a
termination signal every already-accepted request completes or fails with a
response before the process exits. -/
def drainsInFlight : Prop :=
  ∀ s : ServerState,
    (onSignal s).completed.length = s.inFlight.length + s.completed.length

/-! Sample concrete instances used by the witness theorems. -/

/-- Sample content items, echoing the spec example status object. -/
def sampleContent : List TextContent :=
  [⟨"text", "uptime: 12345, cpu: 0.12"⟩]

/-- Sample two-item handler output. -/
def sampleContent2 : List TextContent :=
  [⟨"text", "first"⟩, ⟨"text", "second"⟩]

/-- Sample description strings. -/
def sampleDescs : Descs :=
  ⟨"nodes", "node status", "vms", "containers", "exec", "storage",
   "cluster status", "cluster health", "vm issues", "optimization",
   "security posture"⟩

/-- Sample handlers: the node status handler succeeds with the sample
content; the VM command handler fails as if the hypervisor were unreachable;
the rest succeed with empty content. -/
def sampleHandlers : Handlers :=
  { node_tools_get_nodes := fun _ => Except.ok sampleContent2
    node_tools_get_node_status := fun _ => Except.ok sampleContent
    vm_tools_get_vms := fun _ => Except.ok []
    container_tools_get_containers := fun _ => Except.ok []
    vm_tools_execute_command := fun _ _ _ =>
      Except.error ⟨"connection to host failed: node unreachable"⟩
    storage_tools_get_storage := fun _ => Except.ok []
    cluster_tools_get_cluster_status := fun _ => Except.ok []
    ai_analyze_cluster_health := fun _ => Except.ok []
    ai_diagnose_vm_issues := fun _ _ => Except.ok []
    ai_suggest_resource_optimization := fun _ => Except.ok []
    ai_analyze_security_posture := fun _ => Except.ok [] }

/-- Sample request used in the shutdown model. -/
def sampleRequest : InvocationRequest := ⟨"get_nodes", []⟩

/-- Sample handlers whose VM command handler also succeeds. -/
def sampleHandlersExecOk : Handlers :=
  { sampleHandlers with
    vm_tools_execute_command := fun _ _ _ => Except.ok sampleContent2 }

/-- Sample ill-formed raw parameters for execute_vm_command: command is
missing and vmid carries an integer instead of the declared string. -/
def sampleBadParams : List (String × Value) :=
  [("node", Value.str "pve1"), ("vmid", Value.int 100)]

/-! Helper lemmas shared by the claim theorems. -/

/-- When lookup finds a tool, core dispatch is its validation and invocation
stage. -/
theorem callTool_eq_found (reg : List Tool) (req : InvocationRequest)
    (t : Tool) (hl : lookup reg req.tool = some t) :
    callTool reg req = dispatchFound t req.params := by
  unfold callTool
  rw [hl]

/-- On a schema violation the validation and invocation stage returns the
ValidationError listing the bad fields, with an empty handler call log. -/
theorem dispatchFound_validation_error (t : Tool)
    (raw : List (String × Value)) (hbad : fieldErrors t.schema raw ≠ []) :
    dispatchFound t raw
      = ([], Except.error (CallError.validation ⟨fieldErrors t.schema raw⟩)) := by
  unfold dispatchFound validateParams
  rw [if_neg hbad]

/-- Dispatch of get_node_status when the underlying handler succeeds. -/
theorem callTool_get_node_status_ok (d : Descs) (H : Handlers)
    (node : String) (items : List TextContent)
    (h : H.node_tools_get_node_status node = Except.ok items) :
    callTool (toolList d H) ⟨"get_node_status", [("node", Value.str node)]⟩
      = ([("node_tools.get_node_status", [Value.str node])], Except.ok items) := by
  have e : callTool (toolList d H) ⟨"get_node_status", [("node", Value.str node)]⟩
      = ([("node_tools.get_node_status", [Value.str node])],
         match H.node_tools_get_node_status node with
         | Except.ok its => Except.ok its
         | Except.error he => Except.error (CallError.handlerFailure he)) := rfl
  rw [e, h]

/-- Dispatch of execute_vm_command when the underlying handler succeeds. -/
theorem callTool_execute_vm_command_ok (d : Descs) (H : Handlers)
    (node vmid command : String) (items : List TextContent)
    (h : H.vm_tools_execute_command node vmid command = Except.ok items) :
    callTool (toolList d H)
        ⟨"execute_vm_command",
         [("node", Value.str node), ("vmid", Value.str vmid),
          ("command", Value.str command)]⟩
      = ([("vm_tools.execute_command",
           [Value.str node, Value.str vmid, Value.str command])],
         Except.ok items) := by
  have e : callTool (toolList d H)
        ⟨"execute_vm_command",
         [("node", Value.str node), ("vmid", Value.str vmid),
          ("command", Value.str command)]⟩
      = ([("vm_tools.execute_command",
           [Value.str node, Value.str vmid, Value.str command])],
         match H.vm_tools_execute_command node vmid command with
         | Except.ok its => Except.ok its
         | Except.error he => Except.error (CallError.handlerFailure he)) := rfl
  rw [e, h]

/-! Claim theorems. -/

/-- C1: for every registered tool invoked with all required parameters
present and well typed, dispatch invokes the underlying handler exactly once,
forwarding the supplied values verbatim - the handler call log holds exactly
one entry carrying those values. The log equation holds for an arbitrary
handler outcome, success or failure alike, so a failing handler is never
re-invoked by the dispatcher. -/
theorem dispatch_calls_handler_exactly_once_verbatim
    (d : Descs) (H : Handlers) (node vmid command : String) :
    (callTool (toolList d H) ⟨"get_nodes", []⟩).fst
        = [("node_tools.get_nodes", [])]
  ∧ (callTool (toolList d H) ⟨"get_node_status", [("node", Value.str node)]⟩).fst
        = [("node_tools.get_node_status", [Value.str node])]
  ∧ (callTool (toolList d H) ⟨"get_vms", []⟩).fst = [("vm_tools.get_vms", [])]
  ∧ (callTool (toolList d H) ⟨"get_containers", []⟩).fst
        = [("container_tools.get_containers", [])]
  ∧ (callTool (toolList d H)
        ⟨"execute_vm_command",
         [("node", Value.str node), ("vmid", Value.str vmid),
          ("command", Value.str command)]⟩).fst
        = [("vm_tools.execute_command",
            [Value.str node, Value.str vmid, Value.str command])]
  ∧ (callTool (toolList d H) ⟨"get_storage", []⟩).fst
        = [("storage_tools.get_storage", [])]
  ∧ (callTool (toolList d H) ⟨"get_cluster_status", []⟩).fst
        = [("cluster_tools.get_cluster_status", [])]
  ∧ (callTool (toolList d H) ⟨"analyze_cluster_health", []⟩).fst
        = [("ai_diagnostics.analyze_cluster_health", [])]
  ∧ (callTool (toolList d H)
        ⟨"diagnose_vm_issues",
         [("node", Value.str node), ("vmid", Value.str vmid)]⟩).fst
        = [("ai_diagnostics.diagnose_vm_issues", [Value.str node, Value.str vmid])]
  ∧ (callTool (toolList d H) ⟨"suggest_resource_optimization", []⟩).fst
        = [("ai_diagnostics.suggest_resource_optimization", [])]
  ∧ (callTool (toolList d H) ⟨"analyze_security_posture", []⟩).fst
        = [("ai_diagnostics.analyze_security_posture", [])] :=
  ⟨rfl, rfl, rfl, rfl, rfl, rfl, rfl, rfl, rfl, rfl, rfl⟩

/-- C2: for every one of the eleven registered wrappers, when the underlying
handler succeeds with a list of content items the response envelope carries
exactly that list - same count, same order, no reordering, deduplication or
transformation - and each registered wrapper is the identity on the handler
result. -/
theorem response_preserves_handler_items
    (d : Descs) (H : Handlers) (node vmid command : String)
    (i1 i2 i3 i4 i5 i6 i7 i8 i9 i10 i11 : List TextContent)
    (h1 : H.node_tools_get_nodes () = Except.ok i1)
    (h2 : H.node_tools_get_node_status node = Except.ok i2)
    (h3 : H.vm_tools_get_vms () = Except.ok i3)
    (h4 : H.container_tools_get_containers () = Except.ok i4)
    (h5 : H.vm_tools_execute_command node vmid command = Except.ok i5)
    (h6 : H.storage_tools_get_storage () = Except.ok i6)
    (h7 : H.cluster_tools_get_cluster_status () = Except.ok i7)
    (h8 : H.ai_analyze_cluster_health () = Except.ok i8)
    (h9 : H.ai_diagnose_vm_issues node vmid = Except.ok i9)
    (h10 : H.ai_suggest_resource_optimization () = Except.ok i10)
    (h11 : H.ai_analyze_security_posture () = Except.ok i11) :
    (dispatch (toolList d H) ⟨"get_nodes", []⟩).snd
        = { isError := false, content := i1 }
  ∧ (dispatch (toolList d H) ⟨"get_node_status", [("node", Value.str node)]⟩).snd
        = { isError := false, content := i2 }
  ∧ (dispatch (toolList d H) ⟨"get_vms", []⟩).snd
        = { isError := false, content := i3 }
  ∧ (dispatch (toolList d H) ⟨"get_containers", []⟩).snd
        = { isError := false, content := i4 }
  ∧ (dispatch (toolList d H)
        ⟨"execute_vm_command",
         [("node", Value.str node), ("vmid", Value.str vmid),
          ("command", Value.str command)]⟩).snd
        = { isError := false, content := i5 }
  ∧ (dispatch (toolList d H) ⟨"get_storage", []⟩).snd
        = { isError := false, content := i6 }
  ∧ (dispatch (toolList d H) ⟨"get_cluster_status", []⟩).snd
        = { isError := false, content := i7 }
  ∧ (dispatch (toolList d H) ⟨"analyze_cluster_health", []⟩).snd
        = { isError := false, content := i8 }
  ∧ (dispatch (toolList d H)
        ⟨"diagnose_vm_issues",
         [("node", Value.str node), ("vmid", Value.str vmid)]⟩).snd
        = { isError := false, content := i9 }
  ∧ (dispatch (toolList d H) ⟨"suggest_resource_optimization", []⟩).snd
        = { isError := false, content := i10 }
  ∧ (dispatch (toolList d H) ⟨"analyze_security_posture", []⟩).snd
        = { isError := false, content := i11 }
  ∧ (get_nodes H).snd = H.node_tools_get_nodes ()
  ∧ (get_node_status H node).snd = H.node_tools_get_node_status node
  ∧ (get_vms H).snd = H.vm_tools_get_vms ()
  ∧ (get_containers H).snd = H.container_tools_get_containers ()
  ∧ (execute_vm_command H node vmid command).snd
        = H.vm_tools_execute_command node vmid command
  ∧ (get_storage H).snd = H.storage_tools_get_storage ()
  ∧ (get_cluster_status H).snd = H.cluster_tools_get_cluster_status ()
  ∧ (analyze_cluster_health H).snd = H.ai_analyze_cluster_health ()
  ∧ (diagnose_vm_issues H node vmid).snd = H.ai_diagnose_vm_issues node vmid
  ∧ (suggest_resource_optimization H).snd
        = H.ai_suggest_resource_optimization ()
  ∧ (analyze_security_posture H).snd = H.ai_analyze_security_posture () := by
  refine ⟨?_, ?_, ?_, ?_, ?_, ?_, ?_, ?_, ?_, ?_, ?_,
    rfl, rfl, rfl, rfl, rfl, rfl, rfl, rfl, rfl, rfl, rfl⟩
  · show toResponse (callTool (toolList d H) ⟨"get_nodes", []⟩).snd = _
    have e : callTool (toolList d H) ⟨"get_nodes", []⟩
        = ([("node_tools.get_nodes", [])],
           match H.node_tools_get_nodes () with
           | Except.ok its => Except.ok its
           | Except.error he => Except.error (CallError.handlerFailure he)) := rfl
    rw [e, h1]
    rfl
  · show toResponse (callTool (toolList d H)
        ⟨"get_node_status", [("node", Value.str node)]⟩).snd = _
    rw [callTool_get_node_status_ok d H node i2 h2]
    rfl
  · show toResponse (callTool (toolList d H) ⟨"get_vms", []⟩).snd = _
    have e : callTool (toolList d H) ⟨"get_vms", []⟩
        = ([("vm_tools.get_vms", [])],
           match H.vm_tools_get_vms () with
           | Except.ok its => Except.ok its
           | Except.error he => Except.error (CallError.handlerFailure he)) := rfl
    rw [e, h3]
    rfl
  · show toResponse (callTool (toolList d H) ⟨"get_containers", []⟩).snd = _
    have e : callTool (toolList d H) ⟨"get_containers", []⟩
        = ([("container_tools.get_containers", [])],
           match H.container_tools_get_containers () with
           | Except.ok its => Except.ok its
           | Except.error he => Except.error (CallError.handlerFailure he)) := rfl
    rw [e, h4]
    rfl
  · show toResponse (callTool (toolList d H)
        ⟨"execute_vm_command",
         [("node", Value.str node), ("vmid", Value.str vmid),
          ("command", Value.str command)]⟩).snd = _
    rw [callTool_execute_vm_command_ok d H node vmid command i5 h5]
    rfl
  · show toResponse (callTool (toolList d H) ⟨"get_storage", []⟩).snd = _
    have e : callTool (toolList d H) ⟨"get_storage", []⟩
        = ([("storage_tools.get_storage", [])],
           match H.storage_tools_get_storage () with
           | Except.ok its => Except.ok its
           | Except.error he => Except.error (CallError.handlerFailure he)) := rfl
    rw [e, h6]
    rfl
  · show toResponse (callTool (toolList d H) ⟨"get_cluster_status", []⟩).snd = _
    have e : callTool (toolList d H) ⟨"get_cluster_status", []⟩
        = ([("cluster_tools.get_cluster_status", [])],
           match H.cluster_tools_get_cluster_status () with
           | Except.ok its => Except.ok its
           | Except.error he => Except.error (CallError.handlerFailure he)) := rfl
    rw [e, h7]
    rfl
  · show toResponse (callTool (toolList d H) ⟨"analyze_cluster_health", []⟩).snd = _
    have e : callTool (toolList d H) ⟨"analyze_cluster_health", []⟩
        = ([("ai_diagnostics.analyze_cluster_health", [])],
           match H.ai_analyze_cluster_health () with
           | Except.ok its => Except.ok its
           | Except.error he => Except.error (CallError.handlerFailure he)) := rfl
    rw [e, h8]
    rfl
  · show toResponse (callTool (toolList d H)
        ⟨"diagnose_vm_issues",
         [("node", Value.str node), ("vmid", Value.str vmid)]⟩).snd = _
    have e : callTool (toolList d H)
        ⟨"diagnose_vm_issues",
         [("node", Value.str node), ("vmid", Value.str vmid)]⟩
        = ([("ai_diagnostics.diagnose_vm_issues", [Value.str node, Value.str vmid])],
           match H.ai_diagnose_vm_issues node vmid with
           | Except.ok its => Except.ok its
           | Except.error he => Except.error (CallError.handlerFailure he)) := rfl
    rw [e, h9]
    rfl
  · show toResponse (callTool (toolList d H)
        ⟨"suggest_resource_optimization", []⟩).snd = _
    have e : callTool (toolList d H) ⟨"suggest_resource_optimization", []⟩
        = ([("ai_diagnostics.suggest_resource_optimization", [])],
           match H.ai_suggest_resource_optimization () with
           | Except.ok its => Except.ok its
           | Except.error he => Except.error (CallError.handlerFailure he)) := rfl
    rw [e, h10]
    rfl
  · show toResponse (callTool (toolList d H)
        ⟨"analyze_security_posture", []⟩).snd = _
    have e : callTool (toolList d H) ⟨"analyze_security_posture", []⟩
        = ([("ai_diagnostics.analyze_security_posture", [])],
           match H.ai_analyze_security_posture () with
           | Except.ok its => Except.ok its
           | Except.error he => Except.error (CallError.handlerFailure he)) := rfl
    rw [e, h11]
    rfl

/-- Witness for C2 at concrete inputs, discharging the success hypothesis of
every one of the eleven handlers. -/
theorem response_preserves_handler_items_witness :
    sampleHandlersExecOk.node_tools_get_nodes () = Except.ok sampleContent2
  ∧ sampleHandlersExecOk.node_tools_get_node_status "pve1"
        = Except.ok sampleContent
  ∧ sampleHandlersExecOk.vm_tools_execute_command "pve1" "100" "uptime"
        = Except.ok sampleContent2
  ∧ (dispatch (toolList sampleDescs sampleHandlersExecOk)
        ⟨"get_node_status", [("node", Value.str "pve1")]⟩).snd
        = { isError := false, content := sampleContent } :=
  ⟨rfl, rfl, rfl,
   (response_preserves_handler_items sampleDescs sampleHandlersExecOk
     "pve1" "100" "uptime" sampleContent2 sampleContent [] [] sampleContent2
     [] [] [] [] [] [] rfl rfl rfl rfl rfl rfl rfl rfl rfl rfl rfl).2.1⟩

/-- C3: for every registered tool, an invocation whose raw parameters violate
the schema - a required field missing or a field of the wrong type - fails
with the ValidationError enumerating the bad fields, and the underlying
handler is never invoked: the handler call log stays empty. -/
theorem validation_failure_never_calls_handler
    (d : Descs) (H : Handlers) (t : Tool) (ht : t ∈ toolList d H)
    (raw : List (String × Value)) (hbad : fieldErrors t.schema raw ≠ []) :
    callTool (toolList d H) ⟨t.identifier, raw⟩
      = ([], Except.error (CallError.validation ⟨fieldErrors t.schema raw⟩)) := by
  have hfound : lookup (toolList d H) t.identifier = some t := by
    simp only [toolList, List.mem_cons, List.not_mem_nil, or_false] at ht
    rcases ht with rfl | rfl | rfl | rfl | rfl | rfl | rfl | rfl | rfl | rfl | rfl <;> rfl
  calc callTool (toolList d H) ⟨t.identifier, raw⟩
      = dispatchFound t raw := callTool_eq_found _ _ _ hfound
    _ = ([], Except.error (CallError.validation ⟨fieldErrors t.schema raw⟩)) :=
        dispatchFound_validation_error t raw hbad

/-- Witness for C3 at concrete inputs: execute_vm_command invoked with the
command parameter missing and vmid given as an integer. -/
theorem validation_failure_never_calls_handler_witness :
    execute_vm_command_tool sampleDescs sampleHandlers
        ∈ toolList sampleDescs sampleHandlers
  ∧ fieldErrors (execute_vm_command_tool sampleDescs sampleHandlers).schema
        sampleBadParams ≠ []
  ∧ callTool (toolList sampleDescs sampleHandlers)
        ⟨"execute_vm_command", sampleBadParams⟩
      = ([], Except.error (CallError.validation
          ⟨[("vmid", "wrong type"), ("command", "missing")]⟩)) := by
  have hm : execute_vm_command_tool sampleDescs sampleHandlers
      ∈ toolList sampleDescs sampleHandlers := by
    simp [toolList]
  have hb : fieldErrors (execute_vm_command_tool sampleDescs sampleHandlers).schema
      sampleBadParams ≠ [] := by decide
  exact ⟨hm, hb,
    validation_failure_never_calls_handler sampleDescs sampleHandlers
      (execute_vm_command_tool sampleDescs sampleHandlers) hm sampleBadParams hb⟩

/-- C4: startup registration succeeds and produces the eleven tools in
registration order, and looking any registered identifier up returns exactly
the tool record supplied at its registration - identifier, description,
schema and handler. -/
theorem registry_lookup_roundtrip (d : Descs) (H : Handlers) :
    setupTools d H = Except.ok (toolList d H)
  ∧ lookup (toolList d H) "get_nodes" = some (get_nodes_tool d H)
  ∧ lookup (toolList d H) "get_node_status" = some (get_node_status_tool d H)
  ∧ lookup (toolList d H) "get_vms" = some (get_vms_tool d H)
  ∧ lookup (toolList d H) "get_containers" = some (get_containers_tool d H)
  ∧ lookup (toolList d H) "execute_vm_command" = some (execute_vm_command_tool d H)
  ∧ lookup (toolList d H) "get_storage" = some (get_storage_tool d H)
  ∧ lookup (toolList d H) "get_cluster_status" = some (get_cluster_status_tool d H)
  ∧ lookup (toolList d H) "analyze_cluster_health"
        = some (analyze_cluster_health_tool d H)
  ∧ lookup (toolList d H) "diagnose_vm_issues" = some (diagnose_vm_issues_tool d H)
  ∧ lookup (toolList d H) "suggest_resource_optimization"
        = some (suggest_resource_optimization_tool d H)
  ∧ lookup (toolList d H) "analyze_security_posture"
        = some (analyze_security_posture_tool d H)
  ∧ (get_node_status_tool d H).description = d.GET_NODE_STATUS_DESC
  ∧ (get_node_status_tool d H).schema = get_node_status_schema
  ∧ (execute_vm_command_tool d H).description = d.EXECUTE_VM_COMMAND_DESC
  ∧ (execute_vm_command_tool d H).schema = execute_vm_command_schema :=
  ⟨rfl, rfl, rfl, rfl, rfl, rfl, rfl, rfl, rfl, rfl, rfl, rfl, rfl, rfl, rfl, rfl⟩

/-- C5: the registered identifiers are pairwise distinct, and registering any
tool under an already-registered identifier fails with the RegistrationError
for that identifier while the registry is left unchanged. -/
theorem registry_identifiers_unique_and_duplicate_rejected
    (d : Descs) (H : Handlers) :
    ((toolList d H).map Tool.identifier).Nodup
  ∧ ∀ t : Tool, t.identifier ∈ (toolList d H).map Tool.identifier →
      register (toolList d H) t = Except.error ⟨t.identifier⟩
      ∧ tryRegister (toolList d H) t = toolList d H := by
  constructor
  · have hmap : (toolList d H).map Tool.identifier
        = ["get_nodes", "get_node_status", "get_vms", "get_containers",
           "execute_vm_command", "get_storage", "get_cluster_status",
           "analyze_cluster_health", "diagnose_vm_issues",
           "suggest_resource_optimization", "analyze_security_posture"] := rfl
    rw [hmap]
    decide
  · intro t ht
    rw [List.mem_map] at ht
    obtain ⟨u, hu, he⟩ := ht
    have hany : (toolList d H).any (fun u => u.identifier == t.identifier) = true := by
      rw [List.any_eq_true]
      refine ⟨u, hu, ?_⟩
      rw [he]
      exact beq_self_eq_true _
    have hreg : register (toolList d H) t = Except.error ⟨t.identifier⟩ := by
      unfold register
      rw [if_pos hany]
    refine ⟨hreg, ?_⟩
    unfold tryRegister
    rw [hreg]

/-- Witness for C5 at a concrete duplicate registration. -/
theorem registry_duplicate_rejected_witness :
    ("get_nodes" ∈ (toolList sampleDescs sampleHandlers).map Tool.identifier)
  ∧ register (toolList sampleDescs sampleHandlers)
        (get_nodes_tool sampleDescs sampleHandlers) = Except.error ⟨"get_nodes"⟩
  ∧ tryRegister (toolList sampleDescs sampleHandlers)
        (get_nodes_tool sampleDescs sampleHandlers)
      = toolList sampleDescs sampleHandlers := by
  have hm : ("get_nodes" : String)
      ∈ (toolList sampleDescs sampleHandlers).map Tool.identifier := by
    rw [show (toolList sampleDescs sampleHandlers).map Tool.identifier
        = ["get_nodes", "get_node_status", "get_vms", "get_containers",
           "execute_vm_command", "get_storage", "get_cluster_status",
           "analyze_cluster_health", "diagnose_vm_issues",
           "suggest_resource_optimization", "analyze_security_posture"] from rfl]
    decide
  obtain ⟨hreg, htry⟩ :=
    (registry_identifiers_unique_and_duplicate_rejected sampleDescs sampleHandlers).2
      (get_nodes_tool sampleDescs sampleHandlers) hm
  exact ⟨hm, hreg, htry⟩

/-- C6: every dispatched call either fully succeeds - the envelope carries
the complete list of handler content items and no error flag - or fully
fails with an error envelope holding exactly one descriptive text block; no
raw failure and no partial response ever reaches the transport, and each
subsequent request in a sequence is still served. -/
theorem responses_complete_or_single_error_block (reg : List Tool)
    (req : InvocationRequest) (reqs : List InvocationRequest) :
    ((∃ e, (callTool reg req).snd = Except.error e ∧
        (dispatch reg req).snd
          = { isError := true, content := [⟨"text", describeError e⟩] })
     ∨ (∃ items, (callTool reg req).snd = Except.ok items ∧
        (dispatch reg req).snd = { isError := false, content := items }))
  ∧ serveAll reg (req :: reqs) = (dispatch reg req).snd :: serveAll reg reqs
  ∧ (serveAll reg reqs).length = reqs.length := by
  refine ⟨?_, rfl, by simp [serveAll]⟩
  cases h : (callTool reg req).snd with
  | error e =>
      refine Or.inl ⟨e, rfl, ?_⟩
      show toResponse (callTool reg req).snd = _
      rw [h]
      rfl
  | ok items =>
      refine Or.inr ⟨items, rfl, ?_⟩
      show toResponse (callTool reg req).snd = _
      rw [h]
      rfl

/-- C7 counterexample: with PROXMOX_MCP_CONFIG unset the diagnostic message
is printed to standard output and nothing at all is written to standard
error, so the claim that the diagnostic goes to standard error fails at this
concrete input. -/
theorem missing_config_message_not_on_stderr :
    (mainEntry none none none).stderrLines = []
  ∧ (mainEntry none none none).stdoutLines
      = ["PROXMOX_MCP_CONFIG environment variable must be set"]
  ∧ ¬ ("PROXMOX_MCP_CONFIG environment variable must be set"
        ∈ (mainEntry none none none).stderrLines) :=
  ⟨rfl, rfl, by simp [mainEntry]⟩

/-- C7 amended: if PROXMOX_MCP_CONFIG is unset at startup the process exits
with status 1 before serving any request, and the diagnostic message is
written to standard output, not standard error. -/
theorem missing_config_exits_nonzero_diag_on_stdout
    (startupOutcome runOutcome : Option PyExc) :
    (mainEntry none startupOutcome runOutcome).exitCode = 1
  ∧ (mainEntry none startupOutcome runOutcome).served = false
  ∧ (mainEntry none startupOutcome runOutcome).stdoutLines
      = ["PROXMOX_MCP_CONFIG environment variable must be set"]
  ∧ (mainEntry none startupOutcome runOutcome).stderrLines = [] :=
  ⟨rfl, rfl, rfl, rfl⟩

/-- C8: the same handler is installed for exactly SIGINT and SIGTERM; it
logs the shutdown message and raises SystemExit 0, so on either signal the
process exits with status 0, while an unhandled exception during startup
makes the process exit with status 1. -/
theorem signals_identical_startup_failure_exits_one (m : String) :
    installedHandlerResult SIGINT = some (signal_handler SIGINT)
  ∧ installedHandlerResult SIGTERM = some (signal_handler SIGTERM)
  ∧ signal_handler SIGINT = signal_handler SIGTERM
  ∧ signal_handler SIGINT
      = (["Received signal to shutdown..."], PyExc.systemExit 0)
  ∧ (mainEntry (some "cfg.json") none (some (PyExc.systemExit 0))).exitCode = 0
  ∧ (mainEntry (some "cfg.json") (some (PyExc.exc m)) none).exitCode = 1 :=
  ⟨rfl, rfl, rfl, rfl, rfl, rfl⟩

/-- C9 counterexample: with one accepted request still in flight, a
termination signal ends the process with no response ever produced for it,
so already-accepted requests are not allowed to complete before exit - the
graceful-drain property fails at this concrete state. -/
theorem signal_discards_inflight_requests :
    (onSignal ⟨true, [sampleRequest], []⟩).completed = []
  ∧ (onSignal ⟨true, [sampleRequest], []⟩).completed.length
      ≠ [sampleRequest].length + ([] : List Response).length
  ∧ ¬ drainsInFlight := by
  refine ⟨rfl, by decide, ?_⟩
  intro hd
  exact absurd (hd ⟨true, [sampleRequest], []⟩) (by decide)

/-- C9 amended: a termination signal received while requests are in flight
makes the process exit immediately with status 0, keeping exactly the
responses already completed; in-flight requests are never completed, and no
further request is accepted because the process has exited. -/
theorem signal_exits_immediately_without_drain (s : ServerState) :
    onSignal s = { exitCode := 0, completed := s.completed } := rfl

/-- C10 counterexample: the SystemExit raised by the installed signal
handler escapes the running event loop yet is not caught by the except
Exception clause of start - no server-error line is logged and the process
exits with status 0, not 1. -/
theorem systemexit_escapes_start_uncaught :
    start (some (PyExc.systemExit 0))
      = (["Starting MCP server..."], some (PyExc.systemExit 0))
  ∧ (mainEntry (some "cfg.json") none (some (PyExc.systemExit 0))).exitCode = 0
  ∧ (mainEntry (some "cfg.json") none (some (PyExc.systemExit 0))).exitCode ≠ 1
  ∧ (mainEntry (some "cfg.json") none
        (some (PyExc.systemExit 0))).logLines
      = ["Starting MCP server..."] :=
  ⟨rfl, rfl, by decide, rfl⟩

/-- C10 amended: any exception of the Exception class escaping the running
server is caught in start, logged as a server error, and leads to process
exit with status 1; the server does not continue afterwards. The exit
exceptions SystemExit and KeyboardInterrupt are outside the Exception class
and propagate past start instead of being caught there. -/
theorem exception_escaping_run_exits_one (m : String) :
    start (some (PyExc.exc m))
      = (["Starting MCP server...", "Server error: " ++ m],
         some (PyExc.systemExit 1))
  ∧ (mainEntry (some "cfg.json") none (some (PyExc.exc m))).exitCode = 1
  ∧ (mainEntry (some "cfg.json") none (some (PyExc.exc m))).logLines
      = ["Starting MCP server...", "Server error: " ++ m] :=
  ⟨rfl, rfl, rfl⟩

end ProxmoxMCP
